import Mathlib

/-!
Shallow embedding of the virtio balloon device (hw/virtio/virtio-balloon.c and
include/sysemu/balloon.h) together with proofs about the claims of the
specification.

Modelling conventions:
* Machine integers are `Nat` (with explicit `% 2 ^ w` where C overflow or
  truncation matters) and `Int` where C uses signed types.
* The descriptor-ring transport (virtqueue_pop / virtqueue_push /
  virtqueue_unpop / virtqueue_rewind / virtio_notify) is not part of the two
  source files; it is modelled from the spec (see the doc comments on the
  `VirtQueue` operations).
* Guest-endian loads (virtio_ldl_p / virtio_tswap16 / virtio_tswap64) are
  modelled as little-endian byte reads, the virtio byte order used by the
  device.
* Side effects are returned as explicit traces: calls to `balloon_pages`
  (the reclaim-advisor entry point) as `(addr, size, deflate)` triples,
  `qemu_madvise` calls likewise, and `virtio_notify` as a count.
-/

def VIRTIO_BALLOON_PFN_SHIFT : Nat := 12

def BALLOON_PAGE_SIZE : Nat := 2 ^ VIRTIO_BALLOON_PFN_SHIFT

def VIRTIO_BALLOON_S_NR : Nat := 7

def VIRTIO_BALLOON_S_MEMFREE : Nat := 4

def UINT32_MAX : Nat := 4294967295

/-- The `uint64_t` representation of the sentinel `-1` stored by `reset_stats`. -/
def STAT_SENTINEL : Nat := 2 ^ 64 - 1

/-- One byte of a guest buffer (values are reduced mod 256 on read). -/
def byteOf (b : Nat) : Nat := b % 256

/-- Little-endian 16-bit load, as `virtio_tswap16` produces on the stat tag. -/
def le16 (b0 b1 : Nat) : Nat := byteOf b0 + 256 * byteOf b1

/-- Little-endian 32-bit load, as `virtio_ldl_p` produces on a 4-byte PFN. -/
def le32 (b0 b1 b2 b3 : Nat) : Nat :=
  byteOf b0 + 256 * byteOf b1 + 65536 * byteOf b2 + 16777216 * byteOf b3

/-- Little-endian 64-bit load, as `virtio_tswap64` produces on a stat value. -/
def le64 (b0 b1 b2 b3 b4 b5 b6 b7 : Nat) : Nat :=
  le32 b0 b1 b2 b3 + 4294967296 * le32 b4 b5 b6 b7

/-- The value of the C `int p = virtio_ldl_p(vdev, &pfn)`: the unsigned 32-bit
load converted to a signed 32-bit `int` (two's complement, gcc semantics). -/
def sext32 (v : Nat) : Int :=
  if v % 2 ^ 32 < 2 ^ 31 then ((v % 2 ^ 32 : Nat) : Int)
  else ((v % 2 ^ 32 : Nat) : Int) - 2 ^ 32

/-- `addr = (ram_addr_t) p << VIRTIO_BALLOON_PFN_SHIFT`: the signed `int p` is
converted to the 64-bit unsigned `ram_addr_t` (sign extension) and shifted. -/
def pfn_to_addr (v : Nat) : Nat :=
  ((sext32 v * 2 ^ VIRTIO_BALLOON_PFN_SHIFT) % (2 ^ 64 : Int)).toNat

/-- One descriptor chain as seen by the device: `in_sg`/`in_addr` are the
device-writable buffers, each modelled as its guest-physical address and
length; `out_sg` are the device-readable buffers modelled as byte lists.
`in_num = inSg.length`, `out_num = outBufs.length`. -/
structure VirtQueueElement where
  inSg : List (Nat × Nat)
  outBufs : List (List Nat)
  deriving DecidableEq, Repr

/-- Modelled from the spec: the descriptor-chain transport keeps an ordered
ring of chains.  `lastAvail` indexes the next chain available to pop, `inuse`
counts chains popped but not yet returned, and `used` records the chains
pushed back together with the payload length reported to the guest. -/
structure VirtQueue where
  ring : List VirtQueueElement
  lastAvail : Nat
  inuse : Nat
  used : List (VirtQueueElement × Nat)
  deriving DecidableEq, Repr

/-- Modelled from the spec: `virtqueue_pop` hands the device the next
available chain, if any, marking it in use. -/
def VirtQueue.pop (vq : VirtQueue) : Option VirtQueueElement × VirtQueue :=
  match vq.ring[vq.lastAvail]? with
  | some e => (some e, { vq with lastAvail := vq.lastAvail + 1, inuse := vq.inuse + 1 })
  | none => (none, vq)

/-- Modelled from the spec: `virtqueue_push` returns an in-use chain to the
guest with the given payload length. -/
def VirtQueue.push (vq : VirtQueue) (e : VirtQueueElement) (len : Nat) : VirtQueue :=
  { vq with used := vq.used ++ [(e, len)], inuse := vq.inuse - 1 }

/-- Modelled from the spec: `virtqueue_unpop` returns the most recently popped
chain to the "available to the guest to re-claim" state (the device consumed
`len` bytes of it, zero at both call sites). -/
def VirtQueue.unpop (vq : VirtQueue) (_e : VirtQueueElement) (_len : Nat) : VirtQueue :=
  { vq with lastAvail := vq.lastAvail - 1, inuse := vq.inuse - 1 }

/-- Modelled from the spec: `virtqueue_rewind` makes `num` previously popped
but still in-use (discarded) chains available again; it fails when fewer than
`num` chains are in use. -/
def VirtQueue.rewind (vq : VirtQueue) (num : Nat) : Bool × VirtQueue :=
  if num ≤ vq.inuse then
    (true, { vq with lastAvail := vq.lastAvail - num, inuse := vq.inuse - num })
  else (false, vq)

/-- The negotiated feature bits consulted by the device. -/
structure Features where
  stats_vq : Bool
  sg : Bool
  free_page_vq : Bool
  deflate_on_oom : Bool
  deriving DecidableEq, Repr

/-- The device-private state of `VirtIOBalloon` (the fields the two source
files read or write).  `stats_timer` is the armed deadline of the poll timer
in milliseconds of the virtual clock, `none` when no timer exists. -/
structure VirtIOBalloon where
  num_pages : Nat
  actual : Nat
  stats : List Nat
  stats_vq_elem : Option VirtQueueElement
  stats_vq_offset : Nat
  stats_last_update : Int
  stats_poll_interval : Int
  stats_timer : Option Int
  free_page_vq_elem : Option VirtQueueElement
  free_page_ready : Bool
  deriving DecidableEq, Repr

/-- `reset_stats`: mark all `VIRTIO_BALLOON_S_NR` slots as unset (`-1`). -/
def reset_stats : List Nat := List.replicate VIRTIO_BALLOON_S_NR STAT_SENTINEL

/-- `balloon_stats_enabled`: `s->stats_poll_interval > 0`. -/
def balloon_stats_enabled (s : VirtIOBalloon) : Bool :=
  0 < s.stats_poll_interval

/-- `balloon_stats_destroy_timer`: delete and free the timer and clear the
interval, but only when polling is currently enabled. -/
def balloon_stats_destroy_timer (s : VirtIOBalloon) : VirtIOBalloon :=
  if balloon_stats_enabled s then { s with stats_timer := none, stats_poll_interval := 0 }
  else s

/-- `balloon_stats_change_timer`: re-arm the timer `secs` seconds from now. -/
def balloon_stats_change_timer (now : Int) (s : VirtIOBalloon) (secs : Int) : VirtIOBalloon :=
  { s with stats_timer := some (now + secs * 1000) }

/-- The result of `memory_region_find` that `balloon_pages` inspects: whether
a region was found (`mr != NULL`), the section size, and the region kind. -/
structure MemoryRegionSection where
  found : Bool
  size : Nat
  is_ram : Bool
  is_rom : Bool
  is_romd : Bool
  deriving DecidableEq, Repr

/-- The abort condition of the `balloon_pages` loop: no region, empty section,
not RAM, ROM, or ROM-device-backed. -/
def memory_section_bad (sec : MemoryRegionSection) : Bool :=
  !sec.found || sec.size == 0 || !sec.is_ram || sec.is_rom || sec.is_romd

/-- The `while (size > 0)` loop of `balloon_pages`, resolving the range
against the memory map `find` and issuing one `qemu_madvise` call per
resolved section.  Returns the madvise trace and whether the loop aborted on
an invalid section (the `trace_virtio_balloon_bad_addr` + `fprintf` branch).
The fuel argument is instantiated with `size` by `balloon_pages`; every
non-aborting iteration consumes a section of at least one byte, so that fuel
is never exhausted before the loop's own exit conditions fire. -/
def balloon_pages_go (find : Nat → Nat → MemoryRegionSection) (deflate : Bool) :
    Nat → Nat → Nat → List (Nat × Nat × Bool) × Bool
  | 0, _, _ => ([], false)
  | Nat.succ fuel, addr, size =>
    if size = 0 then ([], false)
    else
      let sec := find addr size
      if memory_section_bad sec then ([], true)
      else
        let len := sec.size
        let rest := balloon_pages_go find deflate fuel (addr + len) (size - len)
        ((addr, len, deflate) :: rest.1, rest.2)

/-- `balloon_pages`: skipped entirely when ballooning is inhibited or the
hypervisor lacks synchronous-MMU support, otherwise madvise each resolved
section of `[addr, addr + size)`. -/
def balloon_pages (find : Nat → Nat → MemoryRegionSection) (inhibited kvm_bad : Bool)
    (addr size : Nat) (deflate : Bool) : List (Nat × Nat × Bool) × Bool :=
  if inhibited || kvm_bad then ([], false)
  else balloon_pages_go find deflate size addr size

/-- The legacy-mode PFN loop of `virtio_balloon_handle_output`:
`iov_to_buf(elem->out_sg, elem->out_num, offset, &pfn, 4)` reads 4 bytes at
offsets 0, 4, 8, … of the concatenated output buffers while 4 bytes remain,
which is the same as consuming the concatenated byte list four at a time. -/
def balloon_pfn_loop : List Nat → List Nat
  | b0 :: b1 :: b2 :: b3 :: rest => le32 b0 b1 b2 b3 :: balloon_pfn_loop rest
  | _ => []

/-- The per-chain body of `virtio_balloon_handle_output`: the list of
`balloon_pages` calls `(addr, size, deflate)` made for the chain and the
final `offset` passed to `virtqueue_push`.  In SG mode each input buffer is
forwarded as one range and `offset` stays 0; in legacy mode each 4-byte PFN
is expanded to one balloon page and `offset` counts the bytes consumed. -/
def virtio_balloon_process_elem (sg is_dvq : Bool) (e : VirtQueueElement) :
    List (Nat × Nat × Bool) × Nat :=
  if sg then (e.inSg.map (fun r => (r.1, r.2, is_dvq)), 0)
  else
    let pfns := balloon_pfn_loop e.outBufs.flatten
    (pfns.map (fun p => (pfn_to_addr p, BALLOON_PAGE_SIZE, is_dvq)), 4 * pfns.length)

/-- The `for (;;)` pop loop of `virtio_balloon_handle_output`.  The loop ends
when `virtqueue_pop` returns no chain; the fuel argument is instantiated by
`virtio_balloon_handle_output` with the number of chains still available,
which the pop/push discipline never exceeds.  Returns the updated queue, the
`balloon_pages` call trace, and the number of `virtio_notify` calls. -/
def virtio_balloon_handle_output_go (sg is_dvq : Bool) :
    Nat → VirtQueue → VirtQueue × List (Nat × Nat × Bool) × Nat
  | 0, vq => (vq, [], 0)
  | Nat.succ fuel, vq =>
    match vq.pop with
    | (none, vq1) => (vq1, [], 0)
    | (some e, vq1) =>
      let r := virtio_balloon_process_elem sg is_dvq e
      let vq2 := vq1.push e r.2
      let rest := virtio_balloon_handle_output_go sg is_dvq fuel vq2
      (rest.1, r.1 ++ rest.2.1, rest.2.2 + 1)

/-- `virtio_balloon_handle_output`: drain the inflate or deflate queue.
`is_dvq` is the C condition `vq == s->dvq`; `sg` is
`balloon_sg_supported(s)`. -/
def virtio_balloon_handle_output (sg is_dvq : Bool) (vq : VirtQueue) :
    VirtQueue × List (Nat × Nat × Bool) × Nat :=
  virtio_balloon_handle_output_go sg is_dvq (vq.ring.length - vq.lastAvail) vq

/-- The madvise activity of one Inflate/Deflate chain: `balloon_pages` is
invoked once per range recorded by `virtio_balloon_process_elem`, each call
independent of the others.  Returns the concatenated madvise trace and the
number of logged invalid-range aborts. -/
def balloon_chain_madvise (find : Nat → Nat → MemoryRegionSection)
    (inhibited kvm_bad : Bool) : List (Nat × Nat × Bool) → List (Nat × Nat × Bool) × Nat
  | [] => ([], 0)
  | c :: rest =>
    let r := balloon_pages find inhibited kvm_bad c.1 c.2.1 c.2.2
    let rr := balloon_chain_madvise find inhibited kvm_bad rest
    (r.1 ++ rr.1, (if r.2 then 1 else 0) + rr.2)

/-- The stats parse loop of `virtio_balloon_receive_stats`:
`iov_to_buf(elem->out_sg, elem->out_num, offset, &stat, sizeof(stat))` reads
one packed 10-byte `{tag : u16, val : u64}` record at offsets 0, 10, 20, …
while a full record remains. -/
def virtio_balloon_stat_loop : List Nat → List (Nat × Nat)
  | b0 :: b1 :: b2 :: b3 :: b4 :: b5 :: b6 :: b7 :: b8 :: b9 :: rest =>
    (le16 b0 b1, le64 b2 b3 b4 b5 b6 b7 b8 b9) :: virtio_balloon_stat_loop rest
  | _ => []

/-- `virtio_balloon_receive_stats`: pop one chain from the stats queue;
defensively push back a still-held previous buffer; reset the snapshot; store
each in-range `(tag, val)` pair; record the consumed byte count; update
`last_update` from the clock (`tv = none` models `qemu_gettimeofday`
failure); finally re-arm the poll timer if polling is enabled.  Returns the
device, the queue, and the number of `virtio_notify` calls. -/
def virtio_balloon_receive_stats (now : Int) (tv : Option Int)
    (s : VirtIOBalloon) (vq : VirtQueue) : VirtIOBalloon × VirtQueue × Nat :=
  match vq.pop with
  | (none, vq1) =>
    (if balloon_stats_enabled s then balloon_stats_change_timer now s s.stats_poll_interval
     else s, vq1, 0)
  | (some elem, vq1) =>
    let old := s.stats_vq_elem
    let vq2 := match old with
      | some o => vq1.push o 0
      | none => vq1
    let n1 := match old with
      | some _ => 1
      | none => 0
    let pairs := virtio_balloon_stat_loop elem.outBufs.flatten
    let stats1 := pairs.foldl
      (fun acc p => if p.1 < VIRTIO_BALLOON_S_NR then acc.set p.1 p.2 else acc) reset_stats
    let offset := 10 * pairs.length
    let s2 := { s with stats_vq_elem := some elem, stats := stats1, stats_vq_offset := offset }
    let s3 := match tv with
      | some t => { s2 with stats_last_update := t }
      | none => s2
    (if balloon_stats_enabled s3 then balloon_stats_change_timer now s3 s3.stats_poll_interval
     else s3, vq2, n1)

/-- `balloon_stats_poll_cb`: with no held stats buffer or the stats feature
not negotiated, just re-arm the timer; otherwise push the held buffer back
with the previously recorded consumed-byte count, notify, and release it. -/
def balloon_stats_poll_cb (feat : Features) (now : Int)
    (s : VirtIOBalloon) (svq : VirtQueue) : VirtIOBalloon × VirtQueue × Nat :=
  match s.stats_vq_elem with
  | none => (balloon_stats_change_timer now s s.stats_poll_interval, svq, 0)
  | some e =>
    if !feat.stats_vq then (balloon_stats_change_timer now s s.stats_poll_interval, svq, 0)
    else ({ s with stats_vq_elem := none }, svq.push e s.stats_vq_offset, 1)

/-- `balloon_stats_set_poll_interval`: validate and apply a new poll
interval.  Returns the updated device and the error message, if any. -/
def balloon_stats_set_poll_interval (now : Int) (s : VirtIOBalloon) (value : Int) :
    VirtIOBalloon × Option String :=
  if value < 0 then (s, some "timer value must be greater than zero")
  else if (UINT32_MAX : Int) < value then (s, some "timer value is too big")
  else if value = s.stats_poll_interval then (s, none)
  else if value = 0 then (balloon_stats_destroy_timer s, none)
  else if balloon_stats_enabled s then
    (balloon_stats_change_timer now { s with stats_poll_interval := value } value, none)
  else
    (balloon_stats_change_timer now { s with stats_poll_interval := value } 0, none)

/-- The `for (;;)` pop loop of `virtio_balloon_handle_free_pages`.  For a
chain with output buffers: retain it as the held free-page buffer if none is
held, and set `free_page_ready`.  For a chain with input buffers: forward the
first input buffer's range to `skip_free_pages_from_dirty_bitmap` (recorded
in the skip trace), push the chain back with `sizeof(flag) = 4`, and notify.
The fuel argument is instantiated with the number of available chains. -/
def virtio_balloon_handle_free_pages_go :
    Nat → VirtIOBalloon → VirtQueue → VirtIOBalloon × VirtQueue × Nat × List (Nat × Nat)
  | 0, s, vq => (s, vq, 0, [])
  | Nat.succ fuel, s, vq =>
    match vq.pop with
    | (none, vq1) => (s, vq1, 0, [])
    | (some e, vq1) =>
      let s1 :=
        if 0 < e.outBufs.length then
          { s with
            free_page_vq_elem := match s.free_page_vq_elem with
              | none => some e
              | some o => some o,
            free_page_ready := true }
        else s
      let vq2 := if 0 < e.inSg.length then vq1.push e 4 else vq1
      let n2 := if 0 < e.inSg.length then 1 else 0
      let sk2 := if 0 < e.inSg.length then [e.inSg.headD (0, 0)] else []
      let rest := virtio_balloon_handle_free_pages_go fuel s1 vq2
      (rest.1, rest.2.1, n2 + rest.2.2.1, sk2 ++ rest.2.2.2)

/-- `virtio_balloon_handle_free_pages`: drain the free-page queue.  Returns
the device, the queue, the number of `virtio_notify` calls, and the ranges
forwarded to `skip_free_pages_from_dirty_bitmap`. -/
def virtio_balloon_handle_free_pages (s : VirtIOBalloon) (vq : VirtQueue) :
    VirtIOBalloon × VirtQueue × Nat × List (Nat × Nat) :=
  virtio_balloon_handle_free_pages_go (vq.ring.length - vq.lastAvail) s vq

/-- `virtio_balloon_free_page_support` (the start-or-continue-reporting
operation): false when the capability is not negotiated; otherwise make sure
a free-page buffer is held, popping one if absent (the popped chain is stored
as held even when the subsequent output-buffer check fails). -/
def virtio_balloon_free_page_support (feat : Features) (s : VirtIOBalloon)
    (fvq : VirtQueue) : Bool × VirtIOBalloon × VirtQueue :=
  if !feat.free_page_vq then (false, s, fvq)
  else
    match s.free_page_vq_elem with
    | some _ => (true, s, fvq)
    | none =>
      match fvq.pop with
      | (none, fvq1) => (false, s, fvq1)
      | (some e, fvq1) =>
        let s1 := { s with free_page_vq_elem := some e }
        if e.outBufs.length = 0 then (false, s1, fvq1) else (true, s1, fvq1)

/-- `virtio_balloon_free_page_report` (the collect-one operation): `-1` when
the capability is not negotiated; otherwise clear `free_page_ready` on entry,
make sure a buffer is held (popping one if absent, `-1` when that fails or
the popped chain has no output buffers), then push the held buffer back with
a `sizeof(uint32_t) = 4` payload, notify, and release it.  Returns the C
return value, the device, the queue, and the `virtio_notify` count. -/
def virtio_balloon_free_page_report (feat : Features) (s : VirtIOBalloon)
    (fvq : VirtQueue) : Int × VirtIOBalloon × VirtQueue × Nat :=
  if !feat.free_page_vq then (-1, s, fvq, 0)
  else
    let s0 := { s with free_page_ready := false }
    match s0.free_page_vq_elem with
    | some e => (0, { s0 with free_page_vq_elem := none }, fvq.push e 4, 1)
    | none =>
      match fvq.pop with
      | (none, fvq1) => (-1, s0, fvq1, 0)
      | (some e, fvq1) =>
        let s1 := { s0 with free_page_vq_elem := some e }
        if e.outBufs.length = 0 then (-1, s1, fvq1, 0)
        else (0, { s1 with free_page_vq_elem := none }, fvq1.push e 4, 1)

/-- `virtio_balloon_free_page_ready`: the is-ready session flag. -/
def virtio_balloon_free_page_ready (s : VirtIOBalloon) : Bool :=
  s.free_page_ready

/-- `virtio_balloon_device_reset`: un-pop a held stats buffer with zero bytes
consumed and clear the handle; likewise for a held free-page buffer when the
free-page capability is negotiated. -/
def virtio_balloon_device_reset (feat : Features) (s : VirtIOBalloon)
    (svq fvq : VirtQueue) : VirtIOBalloon × VirtQueue × VirtQueue :=
  let p1 : VirtIOBalloon × VirtQueue := match s.stats_vq_elem with
    | some e => ({ s with stats_vq_elem := none }, svq.unpop e 0)
    | none => (s, svq)
  let p2 : VirtIOBalloon × VirtQueue :=
    if feat.free_page_vq then
      match p1.1.free_page_vq_elem with
      | some e => ({ p1.1 with free_page_vq_elem := none }, fvq.unpop e 0)
      | none => (p1.1, fvq)
    else (p1.1, fvq)
  (p2.1, p1.2, p2.2)

/-- `virtio_balloon_set_status`: when the VM is running and the driver set
DRIVER_OK (bit 2 of the status byte), recover buffers discarded while the VM
was stopped: if no stats buffer is held and the stats ring rewinds one
element, re-run `virtio_balloon_receive_stats`; symmetrically for the
free-page ring and `virtio_balloon_handle_free_pages` when that capability is
negotiated.  The short-circuit order of the C `&&` is preserved: the rewind
only happens after the held-buffer check. -/
def virtio_balloon_set_status (feat : Features) (now : Int) (tv : Option Int)
    (vm_running : Bool) (status : Nat) (s : VirtIOBalloon) (svq fvq : VirtQueue) :
    VirtIOBalloon × VirtQueue × VirtQueue × Nat :=
  if vm_running && status.testBit 2 then
    let p1 : VirtIOBalloon × VirtQueue × Nat :=
      if s.stats_vq_elem = none then
        match svq.rewind 1 with
        | (true, svq0) => virtio_balloon_receive_stats now tv s svq0
        | (false, svq0) => (s, svq0, 0)
      else (s, svq, 0)
    let s1 := p1.1
    let p2 : VirtIOBalloon × VirtQueue × Nat × List (Nat × Nat) :=
      if feat.free_page_vq && s1.free_page_vq_elem = none then
        match fvq.rewind 1 with
        | (true, fvq0) => virtio_balloon_handle_free_pages s1 fvq0
        | (false, fvq0) => (s1, fvq0, 0, [])
      else (s1, fvq, 0, [])
    (p2.1, p1.2.1, p2.2.1, p1.2.2 + p2.2.2.1)
  else (s, svq, fvq, 0)

/-- `virtio_balloon_set_config`: take the guest-written `actual` (little
endian, truncated to 32 bits); when it differs from the previous value emit a
`balloon_change` event carrying
`vm_ram_size - (dev->actual << VIRTIO_BALLOON_PFN_SHIFT)` computed in 64-bit
unsigned arithmetic.  Returns the device and the emitted value, if any. -/
def virtio_balloon_set_config (vm_ram_size : Nat) (s : VirtIOBalloon)
    (config_actual : Nat) : VirtIOBalloon × Option Nat :=
  let oldactual := s.actual
  let newactual := config_actual % 2 ^ 32
  let s1 := { s with actual := newactual }
  if newactual ≠ oldactual then
    (s1, some ((vm_ram_size % 2 ^ 64 + (2 ^ 64 - newactual * 2 ^ VIRTIO_BALLOON_PFN_SHIFT % 2 ^ 64)) % 2 ^ 64))
  else (s1, none)

/-- A concrete two-region memory map: the page at `[4096, 8192)` is
unmapped, everything else resolves to a RAM section covering the queried
range. -/
def c5_find : Nat → Nat → MemoryRegionSection := fun a n =>
  if a = 4096 then ⟨false, 0, false, false, false⟩ else ⟨true, n, true, false, false⟩

/-- Specification-side view of one stats slot: the last value among the
parsed pairs carrying this tag, the sentinel when the payload never sets the
slot. -/
def stats_slot_spec (pairs : List (Nat × Nat)) (i : Nat) : Nat :=
  pairs.foldl (fun v p => if p.1 = i then p.2 else v) STAT_SENTINEL

/-- A madvise trace is contiguous from `a` with flag `d`: each call starts
where the previous one ended, covers at least one byte and carries `d`. -/
def madvise_contig (d : Bool) : Nat → List (Nat × Nat × Bool) → Bool
  | _, [] => true
  | a, c :: rest => (c.1 == a) && (c.2.2 == d) && (c.2.1 != 0) && madvise_contig d (c.1 + c.2.1) rest

/-- The number of bytes covered by a madvise trace. -/
def madvise_span (tr : List (Nat × Nat × Bool)) : Nat :=
  (tr.map (fun c => c.2.1)).sum

/-- Draining the output queue: with fuel covering the available chains, the
pop/process/push loop consumes every available chain, pushes each back with
its own consumed-byte count, makes exactly the per-chain `balloon_pages`
calls in order, and notifies once per chain. -/
theorem virtio_balloon_handle_output_go_drain (sg dv : Bool) :
    ∀ (n : Nat) (vq : VirtQueue), vq.ring.length - vq.lastAvail ≤ n →
      vq.lastAvail ≤ vq.ring.length →
      virtio_balloon_handle_output_go sg dv n vq =
        ({ vq with lastAvail := vq.ring.length,
                   used := vq.used ++ (vq.ring.drop vq.lastAvail).map
                     (fun e => (e, (virtio_balloon_process_elem sg dv e).2)) },
         (vq.ring.drop vq.lastAvail).flatMap (fun e => (virtio_balloon_process_elem sg dv e).1),
         (vq.ring.drop vq.lastAvail).length) := by
  intro n
  induction n with
  | zero =>
    intro vq h1 h2
    have hl : vq.ring.length = vq.lastAvail := by omega
    simp [virtio_balloon_handle_output_go, List.drop_eq_nil_of_le (le_of_eq hl)]
    rw [hl]
  | succ n ih =>
    intro vq h1 h2
    rcases hp : vq.ring[vq.lastAvail]? with _ | e
    · have hl : vq.ring.length = vq.lastAvail := by
        have := List.getElem?_eq_none_iff.mp hp
        omega
      simp [virtio_balloon_handle_output_go, VirtQueue.pop, hp,
        List.drop_eq_nil_of_le (le_of_eq hl)]
      rw [hl]
    · have hlt : vq.lastAvail < vq.ring.length := by
        by_contra hc
        rw [List.getElem?_eq_none_iff.mpr (by omega)] at hp
        exact Option.noConfusion hp
      have hdrop := List.drop_eq_getElem_cons hlt
      have hget : vq.ring[vq.lastAvail] = e := by
        rcases List.getElem?_eq_some_iff.mp hp with ⟨h, he⟩
        exact he
      rw [hget] at hdrop
      have key := ih ⟨vq.ring, vq.lastAvail + 1, vq.inuse,
          vq.used ++ [(e, (virtio_balloon_process_elem sg dv e).2)]⟩
          (by simp; omega) (by simp; omega)
      simp only at key
      simp [virtio_balloon_handle_output_go, VirtQueue.pop, hp, VirtQueue.push, key, hdrop]

/-- The free-page handler only touches the free-page session fields: every
other device field survives the loop unchanged. -/
theorem virtio_balloon_handle_free_pages_go_frame :
    ∀ (n : Nat) (s : VirtIOBalloon) (vq : VirtQueue),
      (virtio_balloon_handle_free_pages_go n s vq).1.stats_vq_elem = s.stats_vq_elem ∧
      (virtio_balloon_handle_free_pages_go n s vq).1.stats = s.stats ∧
      (virtio_balloon_handle_free_pages_go n s vq).1.stats_vq_offset = s.stats_vq_offset ∧
      (virtio_balloon_handle_free_pages_go n s vq).1.stats_poll_interval = s.stats_poll_interval ∧
      (virtio_balloon_handle_free_pages_go n s vq).1.stats_timer = s.stats_timer ∧
      (virtio_balloon_handle_free_pages_go n s vq).1.stats_last_update = s.stats_last_update ∧
      (virtio_balloon_handle_free_pages_go n s vq).1.num_pages = s.num_pages ∧
      (virtio_balloon_handle_free_pages_go n s vq).1.actual = s.actual := by
  intro n
  induction n with
  | zero => intro s vq; simp [virtio_balloon_handle_free_pages_go]
  | succ n ih =>
    intro s vq
    rcases hp : vq.pop with ⟨_ | e, vq1⟩
    · simp [virtio_balloon_handle_free_pages_go, hp]
    · simp only [virtio_balloon_handle_free_pages_go, hp]
      by_cases ho : 0 < e.outBufs.length <;> by_cases hi : 0 < e.inSg.length <;>
        simp [ho, hi, ih]

/-- The free-page session flag after the handler loop: it is set exactly when
it was already set or some drained chain carries output buffers; the handler
never clears it. -/
theorem virtio_balloon_handle_free_pages_go_ready :
    ∀ (n : Nat) (s : VirtIOBalloon) (vq : VirtQueue),
      vq.ring.length - vq.lastAvail ≤ n → vq.lastAvail ≤ vq.ring.length →
      (virtio_balloon_handle_free_pages_go n s vq).1.free_page_ready =
        (s.free_page_ready ||
          (vq.ring.drop vq.lastAvail).any (fun e => decide (0 < e.outBufs.length))) := by
  intro n
  induction n with
  | zero =>
    intro s vq h1 h2
    have hl : vq.ring.length = vq.lastAvail := by omega
    simp [virtio_balloon_handle_free_pages_go, List.drop_eq_nil_of_le (le_of_eq hl)]
  | succ n ih =>
    intro s vq h1 h2
    rcases hp : vq.ring[vq.lastAvail]? with _ | e
    · have hl : vq.ring.length = vq.lastAvail := by
        have := List.getElem?_eq_none_iff.mp hp
        omega
      simp [virtio_balloon_handle_free_pages_go, VirtQueue.pop, hp,
        List.drop_eq_nil_of_le (le_of_eq hl)]
    · have hlt : vq.lastAvail < vq.ring.length := by
        by_contra hc
        rw [List.getElem?_eq_none_iff.mpr (by omega)] at hp
        exact Option.noConfusion hp
      have hdrop := List.drop_eq_getElem_cons hlt
      have hget : vq.ring[vq.lastAvail] = e := by
        rcases List.getElem?_eq_some_iff.mp hp with ⟨h, he⟩
        exact he
      rw [hget] at hdrop
      simp only [virtio_balloon_handle_free_pages_go, VirtQueue.pop, hp]
      by_cases ho : 0 < e.outBufs.length <;> by_cases hi : 0 < e.inSg.length <;>
        simp only [ho, hi, if_pos, if_neg, if_true, if_false, ite_true, ite_false,
          not_true, not_false_iff] <;>
        rw [ih _ _ (by simp [VirtQueue.push]; omega) (by simp [VirtQueue.push]; omega)] <;>
        simp [VirtQueue.push, hdrop, ho, hi, Bool.or_assoc]

/-- The array fold of `virtio_balloon_receive_stats` computes, slot by slot,
the last-write-wins value over the parsed pairs. -/
theorem stats_foldl_slot (pairs : List (Nat × Nat)) :
    ∀ (l : List Nat) (i : Nat), i < VIRTIO_BALLOON_S_NR → l.length = VIRTIO_BALLOON_S_NR →
      (pairs.foldl
        (fun acc p => if p.1 < VIRTIO_BALLOON_S_NR then acc.set p.1 p.2 else acc) l).getD i 0 =
      pairs.foldl (fun v p => if p.1 = i then p.2 else v) (l.getD i 0) := by
  induction pairs with
  | nil => intro l i hi hl; simp
  | cons p rest ih =>
    intro l i hi hl
    simp only [List.foldl_cons]
    by_cases ht : p.1 < VIRTIO_BALLOON_S_NR
    · rw [if_pos ht, ih (l.set p.1 p.2) i hi (by simp [hl])]
      by_cases he : p.1 = i
      · subst he
        rw [if_pos rfl]
        congr 1
        rw [List.getD_eq_getElem?_getD, List.getElem?_set_self (by omega)]
        rfl
      · rw [if_neg he]
        congr 1
        rw [List.getD_eq_getElem?_getD, List.getElem?_set_ne he, ← List.getD_eq_getElem?_getD]
    · rw [if_neg ht, ih l i hi hl]
      have he : p.1 ≠ i := by omega
      rw [if_neg he]

/-- Coverage of one `balloon_pages` range walk (with the memory map clamping
sections to the queried size, as `memory_region_find` does): the madvise
calls form a contiguous prefix of `[addr, addr + size)`; without an abort the
whole range is covered; with an abort the range is covered exactly up to the
section the map reports as invalid, which lies strictly inside the range. -/
theorem balloon_pages_go_coverage (find : Nat → Nat → MemoryRegionSection) (d : Bool)
    (hfind : ∀ a n, (find a n).size ≤ n) :
    ∀ (fuel addr size : Nat), size ≤ fuel →
      madvise_contig d addr (balloon_pages_go find d fuel addr size).1 = true ∧
      madvise_span (balloon_pages_go find d fuel addr size).1 ≤ size ∧
      ((balloon_pages_go find d fuel addr size).2 = false →
        madvise_span (balloon_pages_go find d fuel addr size).1 = size) ∧
      ((balloon_pages_go find d fuel addr size).2 = true →
        memory_section_bad
          (find (addr + madvise_span (balloon_pages_go find d fuel addr size).1)
            (size - madvise_span (balloon_pages_go find d fuel addr size).1)) = true ∧
        madvise_span (balloon_pages_go find d fuel addr size).1 < size) := by
  intro fuel
  induction fuel with
  | zero =>
    intro addr size hs
    have : size = 0 := by omega
    subst this
    simp [balloon_pages_go, madvise_contig, madvise_span]
  | succ fuel ih =>
    intro addr size hs
    by_cases h0 : size = 0
    · subst h0
      simp [balloon_pages_go, madvise_contig, madvise_span]
    · by_cases hbad : memory_section_bad (find addr size) = true
      · simp [balloon_pages_go, h0, hbad, madvise_contig, madvise_span]
        omega
      · have hlen0 : (find addr size).size ≠ 0 := by
          intro hz
          apply hbad
          simp [memory_section_bad, hz]
        have hlen : (find addr size).size ≤ size := hfind addr size
        have hrec := ih (addr + (find addr size).size) (size - (find addr size).size)
          (by omega)
        simp only [balloon_pages_go, if_neg h0, Bool.not_eq_true] at hbad ⊢
        rw [if_neg (by simp [hbad])]
        simp only [madvise_contig, madvise_span, List.map_cons, List.sum_cons] at *
        refine ⟨?_, ?_, ?_, ?_⟩
        · simp [hrec.1, hlen0]
        · omega
        · intro hab
          have := hrec.2.2.1 hab
          omega
        · intro hab
          have h4 := hrec.2.2.2 hab
          constructor
          · rw [← Nat.add_assoc, ← Nat.sub_sub]
            exact h4.1
          · omega

/-- The per-chain madvise activity splits over any decomposition of the call
list: `balloon_pages` calls for distinct ranges are independent. -/
theorem balloon_chain_madvise_append (find : Nat → Nat → MemoryRegionSection)
    (inh kb : Bool) (l1 l2 : List (Nat × Nat × Bool)) :
    balloon_chain_madvise find inh kb (l1 ++ l2) =
      ((balloon_chain_madvise find inh kb l1).1 ++ (balloon_chain_madvise find inh kb l2).1,
       (balloon_chain_madvise find inh kb l1).2 + (balloon_chain_madvise find inh kb l2).2) := by
  induction l1 with
  | nil => simp [balloon_chain_madvise]
  | cons c rest ih => simp [balloon_chain_madvise, ih]; omega

/-- The legacy PFN loop consumes exactly one PFN per full 4-byte unit of the
payload. -/
theorem balloon_pfn_loop_length :
    ∀ bytes : List Nat, (balloon_pfn_loop bytes).length = bytes.length / 4
  | [] => by simp [balloon_pfn_loop]
  | [b0] => by simp [balloon_pfn_loop]
  | [b0, b1] => by simp [balloon_pfn_loop]
  | [b0, b1, b2] => by simp [balloon_pfn_loop]
  | b0 :: b1 :: b2 :: b3 :: rest => by
    simp [balloon_pfn_loop, balloon_pfn_loop_length rest]
    omega

/-- C1 (amended): in legacy (non-SG) mode the handler drains every available
chain; for each chain every consecutive 4-byte little-endian PFN of its
output payload triggers exactly one `balloon_pages` reclaim-hint call on
`(addr, 4096)` with the deflate flag set exactly when the chain arrived on
the deflate channel, where `addr` is the PFN sign-extended through the C
`int` conversion and shifted — `pfn << 12` for `pfn < 2^31`, but
`pfn * 4096 + (2^64 - 2^44)` for larger PFNs; afterwards the chain is pushed
back with payload length equal to the number of PFN bytes consumed (4 per
PFN, not zero) and the guest is notified once per chain. -/
theorem C1_legacy_chain_processing (dv : Bool) (vq : VirtQueue)
    (h : vq.lastAvail ≤ vq.ring.length) :
    (virtio_balloon_handle_output false dv vq =
      ({ vq with lastAvail := vq.ring.length,
                 used := vq.used ++ (vq.ring.drop vq.lastAvail).map
                   (fun e => (e, 4 * (balloon_pfn_loop e.outBufs.flatten).length)) },
       (vq.ring.drop vq.lastAvail).flatMap
         (fun e => (balloon_pfn_loop e.outBufs.flatten).map
           (fun p => (pfn_to_addr p, BALLOON_PAGE_SIZE, dv))),
       (vq.ring.drop vq.lastAvail).length)) ∧
    (∀ bytes : List Nat, (balloon_pfn_loop bytes).length = bytes.length / 4) ∧
    (∀ p : Nat, p < 2 ^ 32 →
      pfn_to_addr p = if p < 2 ^ 31 then p * 4096 else p * 4096 + (2 ^ 64 - 2 ^ 44)) := by
  refine ⟨?_, balloon_pfn_loop_length, ?_⟩
  · rw [virtio_balloon_handle_output,
      virtio_balloon_handle_output_go_drain false dv _ vq le_rfl h]
    simp [virtio_balloon_process_elem]
  · intro p hp
    simp only [pfn_to_addr, sext32, Nat.mod_eq_of_lt hp, VIRTIO_BALLOON_PFN_SHIFT]
    by_cases h31 : p < 2 ^ 31
    · rw [if_pos (by exact_mod_cast (by simpa using h31)), if_pos h31]
      have hlt : ((p : Int) * 2 ^ 12) % 2 ^ 64 = (p : Int) * 2 ^ 12 := by omega
      rw [hlt]
      omega
    · rw [if_neg (by push_cast; omega), if_neg h31]
      have hlt : (((p : Int) - 2 ^ 32) * 2 ^ 12) % 2 ^ 64 =
          (p : Int) * 2 ^ 12 + (2 ^ 64 - 2 ^ 44) := by
        have h1 : ((p : Int) - 2 ^ 32) * 2 ^ 12 = (p : Int) * 2 ^ 12 - 2 ^ 44 := by ring
        rw [h1]
        omega
      rw [hlt]
      omega

/-- C1 counterexample: for the single-PFN chain `0x80000000` the claim's
prediction — reclaim hint on `(pfn << 12, 4096)` and push-back with zero
extra payload — is false: the code hints `(0xFFFFF80000000000, 4096)`
(sign-extended PFN) and pushes the chain back with length 4. -/
theorem C1_counterexample :
    ¬ (virtio_balloon_handle_output false true ⟨[⟨[], [[0, 0, 0, 128]]⟩], 0, 0, []⟩ =
        (⟨[⟨[], [[0, 0, 0, 128]]⟩], 1, 0, [(⟨[], [[0, 0, 0, 128]]⟩, 0)]⟩,
         [(8796093022208, 4096, true)], 1)) := by decide

/-- Witness for `C1_legacy_chain_processing` at a one-chain queue carrying
PFN 3 on the deflate channel, and at the sign-extension boundary PFN. -/
theorem C1_legacy_chain_processing_witness :
    (virtio_balloon_handle_output false true ⟨[⟨[], [[3, 0, 0, 0]]⟩], 0, 0, []⟩ =
      (⟨[⟨[], [[3, 0, 0, 0]]⟩], 1, 0, [(⟨[], [[3, 0, 0, 0]]⟩, 4)]⟩, [(12288, 4096, true)], 1)) ∧
    pfn_to_addr 2147483648 = 2147483648 * 4096 + (2 ^ 64 - 2 ^ 44) := by
  have h := C1_legacy_chain_processing true ⟨[⟨[], [[3, 0, 0, 0]]⟩], 0, 0, []⟩ (by decide)
  exact ⟨h.1.trans (by decide), (h.2.2 2147483648 (by decide)).trans (by decide)⟩

/-- The snapshot produced by one stats receive on a fresh one-chain queue is
the array fold of the parsed pairs over the all-sentinel snapshot, whatever
the previous device state, clock outcome, and polling mode. -/
theorem receive_stats_stats (now : Int) (tv : Option Int) (s : VirtIOBalloon)
    (e : VirtQueueElement) :
    (virtio_balloon_receive_stats now tv s ⟨[e], 0, 0, []⟩).1.stats =
      (virtio_balloon_stat_loop e.outBufs.flatten).foldl
        (fun acc p => if p.1 < VIRTIO_BALLOON_S_NR then acc.set p.1 p.2 else acc)
        reset_stats := by
  simp only [virtio_balloon_receive_stats, VirtQueue.pop]
  rcases s.stats_vq_elem with _ | o <;> rcases tv with _ | t <;>
    simp [balloon_stats_enabled, balloon_stats_change_timer] <;>
    split <;> simp

/-- C6: on receiving a stats chain the snapshot is first fully reset to the
sentinel, then each packed little-endian `(tag: u16, value: u64)` pair with
an in-range tag sets that slot (last write wins), out-of-range tags being
ignored; in particular the payload `{tag = 4, value = 12345}` yields
free-memory = 12345 and every other slot equal to the sentinel `-1`
(`2^64 - 1` as `uint64_t`). -/
theorem C6_stats_round_trip (s : VirtIOBalloon) (now : Int) (tv : Option Int)
    (e : VirtQueueElement) :
    (∀ i : Fin VIRTIO_BALLOON_S_NR,
      (virtio_balloon_receive_stats now tv s ⟨[e], 0, 0, []⟩).1.stats.getD i 0 =
        stats_slot_spec (virtio_balloon_stat_loop e.outBufs.flatten) i) ∧
    ((virtio_balloon_receive_stats now tv s
        ⟨[⟨[], [[4, 0, 57, 48, 0, 0, 0, 0, 0, 0]]⟩], 0, 0, []⟩).1.stats =
      [STAT_SENTINEL, STAT_SENTINEL, STAT_SENTINEL, STAT_SENTINEL, 12345,
       STAT_SENTINEL, STAT_SENTINEL]) := by
  constructor
  · intro i
    rw [receive_stats_stats,
      stats_foldl_slot _ reset_stats i i.isLt (by simp [reset_stats])]
    have hs : reset_stats.getD i 0 = STAT_SENTINEL := by
      rcases i with ⟨iv, hi⟩
      simp only [VIRTIO_BALLOON_S_NR] at hi
      interval_cases iv <;> rfl
    rw [hs]
    rfl
  · rw [receive_stats_stats]
    decide

/-- C7: poll-interval configuration. Negative values and values above
`2^32 - 1` are rejected with the prior interval and timer unchanged; value 0
(while enabled) tears down the timer and disables polling; re-setting the
currently active value is a no-op; changing a running nonzero interval
re-arms the timer at the new cadence from now; enabling from the disabled
state installs the new interval with a timer armed with zero delay. -/
theorem C7_poll_interval_config (now : Int) (s : VirtIOBalloon) :
    (∀ v : Int, v < 0 →
      balloon_stats_set_poll_interval now s v =
        (s, some "timer value must be greater than zero")) ∧
    (∀ v : Int, (UINT32_MAX : Int) < v →
      balloon_stats_set_poll_interval now s v = (s, some "timer value is too big")) ∧
    (0 < s.stats_poll_interval →
      balloon_stats_set_poll_interval now s 0 =
        ({ s with stats_timer := none, stats_poll_interval := 0 }, none)) ∧
    (0 ≤ s.stats_poll_interval → s.stats_poll_interval ≤ (UINT32_MAX : Int) →
      balloon_stats_set_poll_interval now s s.stats_poll_interval = (s, none)) ∧
    (∀ v : Int, 0 < v → v ≤ (UINT32_MAX : Int) → v ≠ s.stats_poll_interval →
      0 < s.stats_poll_interval →
      balloon_stats_set_poll_interval now s v =
        ({ s with stats_poll_interval := v, stats_timer := some (now + v * 1000) }, none)) ∧
    (∀ v : Int, 0 < v → v ≤ (UINT32_MAX : Int) → s.stats_poll_interval = 0 →
      balloon_stats_set_poll_interval now s v =
        ({ s with stats_poll_interval := v, stats_timer := some now }, none)) := by
  refine ⟨?_, ?_, ?_, ?_, ?_, ?_⟩
  · intro v hv
    rw [balloon_stats_set_poll_interval, if_pos hv]
  · intro v hv
    rw [balloon_stats_set_poll_interval, if_neg (by omega), if_pos hv]
  · intro hen
    rw [balloon_stats_set_poll_interval, if_neg (by omega), if_neg (by omega),
      if_neg (by omega), if_pos rfl]
    simp [balloon_stats_destroy_timer, balloon_stats_enabled, hen]
  · intro h0 h1
    rw [balloon_stats_set_poll_interval, if_neg (by omega), if_neg (by omega), if_pos rfl]
  · intro v h1 h2 h3 h4
    rw [balloon_stats_set_poll_interval, if_neg (by omega), if_neg (by omega),
      if_neg h3, if_neg (by omega), if_pos (by simp [balloon_stats_enabled]; omega)]
    simp [balloon_stats_change_timer]
  · intro v h1 h2 h3
    rw [balloon_stats_set_poll_interval, if_neg (by omega), if_neg (by omega),
      if_neg (by omega), if_neg (by omega),
      if_neg (by simp [balloon_stats_enabled]; omega)]
    simp [balloon_stats_change_timer]

/-- Witness for `C7_poll_interval_config`: a device polling at 5 seconds
rejects -1 and 4294967296, tears down on 0, ignores a repeated 5, and
re-arms on 7; a disabled device arms immediately on 5. -/
theorem C7_poll_interval_config_witness :
    (balloon_stats_set_poll_interval 1000 ⟨0, 0, [], none, 0, 0, 5, some 6000, none, false⟩ (-1) =
      (⟨0, 0, [], none, 0, 0, 5, some 6000, none, false⟩,
       some "timer value must be greater than zero")) ∧
    (balloon_stats_set_poll_interval 1000 ⟨0, 0, [], none, 0, 0, 5, some 6000, none, false⟩
        4294967296 =
      (⟨0, 0, [], none, 0, 0, 5, some 6000, none, false⟩, some "timer value is too big")) ∧
    (balloon_stats_set_poll_interval 1000 ⟨0, 0, [], none, 0, 0, 5, some 6000, none, false⟩ 0 =
      (⟨0, 0, [], none, 0, 0, 0, none, none, false⟩, none)) ∧
    (balloon_stats_set_poll_interval 1000 ⟨0, 0, [], none, 0, 0, 5, some 6000, none, false⟩ 5 =
      (⟨0, 0, [], none, 0, 0, 5, some 6000, none, false⟩, none)) ∧
    (balloon_stats_set_poll_interval 1000 ⟨0, 0, [], none, 0, 0, 5, some 6000, none, false⟩ 7 =
      (⟨0, 0, [], none, 0, 0, 7, some 8000, none, false⟩, none)) ∧
    (balloon_stats_set_poll_interval 1000 ⟨0, 0, [], none, 0, 0, 0, none, none, false⟩ 5 =
      (⟨0, 0, [], none, 0, 0, 5, some 1000, none, false⟩, none)) := by
  have h1 := C7_poll_interval_config 1000 ⟨0, 0, [], none, 0, 0, 5, some 6000, none, false⟩
  have h2 := C7_poll_interval_config 1000 ⟨0, 0, [], none, 0, 0, 0, none, none, false⟩
  exact ⟨h1.1 (-1) (by decide), h1.2.1 4294967296 (by decide), h1.2.2.1 (by decide),
    h1.2.2.2.1 (by decide) (by decide), h1.2.2.2.2.1 7 (by decide) (by decide)
      (by decide) (by decide),
    h2.2.2.2.2.2 5 (by decide) (by decide) rfl⟩

/-- C8: the poll-timer callback.  With no held stats buffer or without the
stats capability it only re-arms itself at the configured interval; otherwise
it pushes the held buffer back with payload length equal to the recorded
consumed-byte count, notifies the guest once, releases the buffer, leaves the
timer deadline unchanged (no rescheduling) and leaves the StatsSnapshot
untouched. -/
theorem C8_poll_cb (feat : Features) (now : Int) (s : VirtIOBalloon) (svq : VirtQueue) :
    ((s.stats_vq_elem = none ∨ feat.stats_vq = false) →
      balloon_stats_poll_cb feat now s svq =
        ({ s with stats_timer := some (now + s.stats_poll_interval * 1000) }, svq, 0)) ∧
    (∀ e, s.stats_vq_elem = some e → feat.stats_vq = true →
      balloon_stats_poll_cb feat now s svq =
        ({ s with stats_vq_elem := none }, svq.push e s.stats_vq_offset, 1) ∧
      (balloon_stats_poll_cb feat now s svq).1.stats = s.stats ∧
      (balloon_stats_poll_cb feat now s svq).1.stats_timer = s.stats_timer) := by
  constructor
  · intro h
    rcases h with h | h
    · simp [balloon_stats_poll_cb, h, balloon_stats_change_timer]
    · rcases he : s.stats_vq_elem with _ | e <;>
        simp [balloon_stats_poll_cb, he, h, balloon_stats_change_timer]
  · intro e he hf
    simp [balloon_stats_poll_cb, he, hf]

/-- Witness for `C8_poll_cb`: both branches at concrete states. -/
theorem C8_poll_cb_witness :
    (balloon_stats_poll_cb ⟨true, true, true, false⟩ 2000
        ⟨0, 0, [], none, 10, 0, 3, some 1000, none, false⟩ ⟨[], 0, 0, []⟩ =
      (⟨0, 0, [], none, 10, 0, 3, some 5000, none, false⟩, ⟨[], 0, 0, []⟩, 0)) ∧
    (balloon_stats_poll_cb ⟨true, true, true, false⟩ 2000
        ⟨0, 0, [], some ⟨[], [[1]]⟩, 10, 0, 3, some 1000, none, false⟩ ⟨[], 0, 1, []⟩ =
      (⟨0, 0, [], none, 10, 0, 3, some 1000, none, false⟩,
       ⟨[], 0, 0, [(⟨[], [[1]]⟩, 10)]⟩, 1)) := by
  refine ⟨(C8_poll_cb ⟨true, true, true, false⟩ 2000
      ⟨0, 0, [], none, 10, 0, 3, some 1000, none, false⟩ ⟨[], 0, 0, []⟩).1
      (Or.inl rfl), ?_⟩
  have h := (C8_poll_cb ⟨true, true, true, false⟩ 2000
      ⟨0, 0, [], some ⟨[], [[1]]⟩, 10, 0, 3, some 1000, none, false⟩ ⟨[], 0, 1, []⟩).2
      ⟨[], [[1]]⟩ rfl rfl
  exact h.1

/-- C9: a guest config write emits a capacity-change event exactly when the
written `actual` differs from the prior one; the emitted value is the current
total RAM minus `actual * 4096` (in 64-bit unsigned arithmetic, plain
subtraction whenever it does not underflow); writing `actual = 80` over a
prior 100 with 1,000,000 bytes of RAM emits `1,000,000 - 80 * 4096`. -/
theorem C9_config_write_event (s : VirtIOBalloon) (ram a : Nat) :
    (((virtio_balloon_set_config ram s a).2 ≠ none) ↔ a % 2 ^ 32 ≠ s.actual) ∧
    ((virtio_balloon_set_config ram s a).1.actual = a % 2 ^ 32) ∧
    (∀ hne : a % 2 ^ 32 ≠ s.actual, ∀ hram : ram < 2 ^ 64,
      ∀ hfit : (a % 2 ^ 32) * 4096 ≤ ram,
      (virtio_balloon_set_config ram s a).2 = some (ram - (a % 2 ^ 32) * 4096)) ∧
    ((virtio_balloon_set_config 1000000
        ⟨0, 100, [], none, 0, 0, 0, none, none, false⟩ 80).2 =
      some (1000000 - 80 * 4096)) := by
  refine ⟨?_, ?_, ?_, by decide⟩
  · simp only [virtio_balloon_set_config]
    split
    · next h2 => simp; omega
    · next h2 => simp; omega
  · simp only [virtio_balloon_set_config]
    split <;> rfl
  · intro hne hram hfit
    simp only [virtio_balloon_set_config, if_pos hne]
    congr 1
    have h4 : (a % 2 ^ 32) * 2 ^ VIRTIO_BALLOON_PFN_SHIFT < 2 ^ 64 := by
      have := Nat.mod_lt a (show 0 < 2 ^ 32 by norm_num)
      simp only [VIRTIO_BALLOON_PFN_SHIFT]
      nlinarith
    rw [Nat.mod_eq_of_lt hram, Nat.mod_eq_of_lt h4]
    simp only [VIRTIO_BALLOON_PFN_SHIFT] at *
    omega

/-- Witness for `C9_config_write_event`: the concrete 100 → 80 write. -/
theorem C9_config_write_event_witness :
    (virtio_balloon_set_config 1000000
        ⟨0, 100, [], none, 0, 0, 0, none, none, false⟩ 80).2 = some 672320 :=
  ((C9_config_write_event ⟨0, 100, [], none, 0, 0, 0, none, none, false⟩
      1000000 80).2.2.1 (by decide) (by norm_num) (by norm_num)).trans (by norm_num)

/-- C10 (amended): start-or-continue-reporting pops a chain only when no
free-page buffer is held.  It returns false when the capability is not
negotiated, or when no buffer was held and either the ring was empty or the
freshly popped chain carries no output buffers — in which latter case the
popped chain is nonetheless retained as the held buffer.  When a buffer is
already held it returns true without re-checking that buffer's output
buffers; every true return leaves a buffer held. -/
theorem C10_free_page_support (feat : Features) (s : VirtIOBalloon) (fvq : VirtQueue) :
    (feat.free_page_vq = false →
      virtio_balloon_free_page_support feat s fvq = (false, s, fvq)) ∧
    (∀ e, feat.free_page_vq = true → s.free_page_vq_elem = some e →
      virtio_balloon_free_page_support feat s fvq = (true, s, fvq)) ∧
    (feat.free_page_vq = true → s.free_page_vq_elem = none → fvq.pop.1 = none →
      virtio_balloon_free_page_support feat s fvq = (false, s, fvq.pop.2)) ∧
    (∀ e, feat.free_page_vq = true → s.free_page_vq_elem = none → fvq.pop.1 = some e →
      virtio_balloon_free_page_support feat s fvq =
        (!e.outBufs.isEmpty, { s with free_page_vq_elem := some e }, fvq.pop.2)) := by
  refine ⟨?_, ?_, ?_, ?_⟩
  · intro hf
    simp [virtio_balloon_free_page_support, hf]
  · intro e hf he
    simp [virtio_balloon_free_page_support, hf, he]
  · intro hf he hp
    rcases hq : fvq.pop with ⟨_ | e, fvq1⟩
    · simp only [virtio_balloon_free_page_support, hf, he, hq]
      simp
    · rw [hq] at hp
      exact absurd hp (by simp)
  · intro e hf he hp
    rcases hq : fvq.pop with ⟨oe, fvq1⟩
    rw [hq] at hp
    simp only at hp
    subst hp
    simp only [virtio_balloon_free_page_support, hf, he, hq]
    rcases hob : e.outBufs with _ | ⟨b, rest⟩ <;> simp [hob]

/-- Witness for `C10_free_page_support`: all four branches at concrete
states (unsupported; held buffer; empty ring; popping an output-carrying
chain). -/
theorem C10_free_page_support_witness :
    (virtio_balloon_free_page_support ⟨true, true, false, false⟩
        ⟨0, 0, [], none, 0, 0, 0, none, none, false⟩ ⟨[], 0, 0, []⟩ =
      (false, ⟨0, 0, [], none, 0, 0, 0, none, none, false⟩, ⟨[], 0, 0, []⟩)) ∧
    (virtio_balloon_free_page_support ⟨true, true, true, false⟩
        ⟨0, 0, [], none, 0, 0, 0, none, some ⟨[], [[1]]⟩, true⟩ ⟨[], 0, 0, []⟩ =
      (true, ⟨0, 0, [], none, 0, 0, 0, none, some ⟨[], [[1]]⟩, true⟩, ⟨[], 0, 0, []⟩)) ∧
    (virtio_balloon_free_page_support ⟨true, true, true, false⟩
        ⟨0, 0, [], none, 0, 0, 0, none, none, false⟩ ⟨[], 0, 0, []⟩ =
      (false, ⟨0, 0, [], none, 0, 0, 0, none, none, false⟩, ⟨[], 0, 0, []⟩)) ∧
    (virtio_balloon_free_page_support ⟨true, true, true, false⟩
        ⟨0, 0, [], none, 0, 0, 0, none, none, false⟩ ⟨[⟨[], [[1]]⟩], 0, 0, []⟩ =
      (true, ⟨0, 0, [], none, 0, 0, 0, none, some ⟨[], [[1]]⟩, false⟩,
       ⟨[⟨[], [[1]]⟩], 1, 1, []⟩)) := by
  refine ⟨(C10_free_page_support ⟨true, true, false, false⟩
      ⟨0, 0, [], none, 0, 0, 0, none, none, false⟩ ⟨[], 0, 0, []⟩).1 rfl,
    (C10_free_page_support ⟨true, true, true, false⟩
      ⟨0, 0, [], none, 0, 0, 0, none, some ⟨[], [[1]]⟩, true⟩ ⟨[], 0, 0, []⟩).2.1
      ⟨[], [[1]]⟩ rfl rfl,
    (C10_free_page_support ⟨true, true, true, false⟩
      ⟨0, 0, [], none, 0, 0, 0, none, none, false⟩ ⟨[], 0, 0, []⟩).2.2.1 rfl rfl (by decide),
    ?_⟩
  have h := (C10_free_page_support ⟨true, true, true, false⟩
      ⟨0, 0, [], none, 0, 0, 0, none, none, false⟩ ⟨[⟨[], [[1]]⟩], 0, 0, []⟩).2.2.2
      ⟨[], [[1]]⟩ rfl rfl (by decide)
  exact h.trans (by decide)

/-- C10 counterexample: after start-or-continue-reporting retains a popped
input-only chain (returning false), a second call returns true even though
the held chain carries no output buffers, contradicting the claim that false
is returned exactly when the capability is unsupported or the popped or
already-held chain carries no output buffers. -/
theorem C10_counterexample :
    (virtio_balloon_free_page_support ⟨true, true, true, false⟩
        ⟨0, 0, [], none, 0, 0, 0, none, none, false⟩ ⟨[⟨[(4096, 8)], []⟩], 0, 0, []⟩ =
      (false, ⟨0, 0, [], none, 0, 0, 0, none, some ⟨[(4096, 8)], []⟩, false⟩,
       ⟨[⟨[(4096, 8)], []⟩], 1, 1, []⟩)) ∧
    (virtio_balloon_free_page_support ⟨true, true, true, false⟩
        ⟨0, 0, [], none, 0, 0, 0, none, some ⟨[(4096, 8)], []⟩, false⟩
        ⟨[⟨[(4096, 8)], []⟩], 1, 1, []⟩).1 = true ∧
    (⟨[(4096, 8)], []⟩ : VirtQueueElement).outBufs.length = 0 := by
  refine ⟨by decide, by decide, by decide⟩

/-- C2 evaluation at the failing input: with an output-only free-page chain
already held, the handler pops a second output-only chain and leaves it
neither retained (the held buffer is unchanged), nor pushed back (the used
list stays empty), nor un-popped (`lastAvail` has moved past it and it stays
counted in `inuse`): the popped chain is silently dropped, violating the
claimed ownership invariant. -/
theorem C2_free_page_buffer_dropped :
    virtio_balloon_handle_free_pages
        ⟨0, 0, [], none, 0, 0, 0, none, some ⟨[], [[1]]⟩, true⟩ ⟨[⟨[], [[2]]⟩], 0, 0, []⟩ =
      (⟨0, 0, [], none, 0, 0, 0, none, some ⟨[], [[1]]⟩, true⟩,
       ⟨[⟨[], [[2]]⟩], 1, 1, []⟩, 0, []) ∧
    (⟨[], [[2]]⟩ : VirtQueueElement) ≠ ⟨[], [[1]]⟩ := by
  exact ⟨by decide, by decide⟩

/-- C4 counterexample: a reachable scenario in which a FAILED collect-one
turns the ready flag from true back to false.  The handler retains an
output-only chain and sets ready; device reset un-pops the held buffer but
leaves ready true; the next collect-one clears ready on entry, re-pops the
ring, finds only an input-only chain, and fails (-1) — yet ready is now
false, contradicting the claim that only a successful collect-one (or reset)
turns it from true back to false. -/
theorem C4_counterexample :
    (virtio_balloon_handle_free_pages ⟨0, 0, [], none, 0, 0, 0, none, none, false⟩
        ⟨[⟨[], [[7]]⟩, ⟨[(4096, 8)], []⟩], 0, 0, []⟩ =
      (⟨0, 0, [], none, 0, 0, 0, none, some ⟨[], [[7]]⟩, true⟩,
       ⟨[⟨[], [[7]]⟩, ⟨[(4096, 8)], []⟩], 2, 1, [(⟨[(4096, 8)], []⟩, 4)]⟩, 1, [(4096, 8)])) ∧
    (virtio_balloon_device_reset ⟨true, true, true, false⟩
        ⟨0, 0, [], none, 0, 0, 0, none, some ⟨[], [[7]]⟩, true⟩ ⟨[], 0, 0, []⟩
        ⟨[⟨[], [[7]]⟩, ⟨[(4096, 8)], []⟩], 2, 1, [(⟨[(4096, 8)], []⟩, 4)]⟩ =
      (⟨0, 0, [], none, 0, 0, 0, none, none, true⟩, ⟨[], 0, 0, []⟩,
       ⟨[⟨[], [[7]]⟩, ⟨[(4096, 8)], []⟩], 1, 0, [(⟨[(4096, 8)], []⟩, 4)]⟩)) ∧
    ((virtio_balloon_free_page_report ⟨true, true, true, false⟩
        ⟨0, 0, [], none, 0, 0, 0, none, none, true⟩
        ⟨[⟨[], [[7]]⟩, ⟨[(4096, 8)], []⟩], 1, 0, [(⟨[(4096, 8)], []⟩, 4)]⟩).1 = -1) ∧
    ((⟨0, 0, [], none, 0, 0, 0, none, none, true⟩ : VirtIOBalloon).free_page_ready = true) ∧
    ((virtio_balloon_free_page_report ⟨true, true, true, false⟩
        ⟨0, 0, [], none, 0, 0, 0, none, none, true⟩
        ⟨[⟨[], [[7]]⟩, ⟨[(4096, 8)], []⟩], 1, 0, [(⟨[(4096, 8)], []⟩, 4)]⟩).2.1.free_page_ready
      = false) := by
  exact ⟨by decide, by decide, by decide, by decide, by decide⟩

/-- C4 (amended): the free-page session flag is false until the channel
handler drains an output-carrying chain, which sets it (the handler never
clears it); every collect-one call that passes the capability check clears
the flag on entry whether or not it subsequently succeeds (an unsupported
call leaves it untouched); and no other operation — device reset,
start-or-continue-reporting, stats receive, or the poll callback — changes
it. -/
theorem C4_ready_flag_transitions (feat : Features) (s : VirtIOBalloon)
    (svq fvq vq : VirtQueue) (now : Int) (tv : Option Int) :
    (vq.lastAvail ≤ vq.ring.length →
      (virtio_balloon_handle_free_pages s vq).1.free_page_ready =
        (s.free_page_ready ||
          (vq.ring.drop vq.lastAvail).any (fun e => decide (0 < e.outBufs.length)))) ∧
    (feat.free_page_vq = false →
      virtio_balloon_free_page_report feat s fvq = (-1, s, fvq, 0)) ∧
    (feat.free_page_vq = true →
      (virtio_balloon_free_page_report feat s fvq).2.1.free_page_ready = false) ∧
    ((virtio_balloon_device_reset feat s svq fvq).1.free_page_ready = s.free_page_ready) ∧
    ((virtio_balloon_free_page_support feat s fvq).2.1.free_page_ready =
      s.free_page_ready) ∧
    ((virtio_balloon_receive_stats now tv s vq).1.free_page_ready = s.free_page_ready) ∧
    ((balloon_stats_poll_cb feat now s svq).1.free_page_ready = s.free_page_ready) := by
  refine ⟨?_, ?_, ?_, ?_, ?_, ?_, ?_⟩
  · intro h
    exact virtio_balloon_handle_free_pages_go_ready _ s vq le_rfl h
  · intro hf
    simp [virtio_balloon_free_page_report, hf]
  · intro hf
    simp only [virtio_balloon_free_page_report, hf]
    rcases he : s.free_page_vq_elem with _ | e
    · rcases hq : fvq.pop with ⟨_ | e2, fvq1⟩ <;>
        · simp [he, hq]
          try split <;> simp
    · simp [he]
  · simp only [virtio_balloon_device_reset]
    rcases hs : s.stats_vq_elem with _ | e <;> rcases hf : feat.free_page_vq with _ | _ <;>
      simp [hs, hf] <;> rcases he : s.free_page_vq_elem with _ | e2 <;> simp [he]
  · simp only [virtio_balloon_free_page_support]
    rcases hf : feat.free_page_vq with _ | _
    · simp
    · rcases he : s.free_page_vq_elem with _ | e
      · rcases hq : fvq.pop with ⟨_ | e2, fvq1⟩
        · simp [he, hq]
        · simp only [he, hq]
          simp
          split <;> simp
      · simp [he]
  · simp only [virtio_balloon_receive_stats]
    rcases hq : vq.pop with ⟨_ | e, vq1⟩
    · simp [hq, balloon_stats_change_timer, balloon_stats_enabled]
      split <;> simp
    · rcases hs : s.stats_vq_elem with _ | o <;> rcases tv with _ | t <;>
        simp [hq, hs, balloon_stats_change_timer, balloon_stats_enabled] <;>
        split <;> simp
  · simp only [balloon_stats_poll_cb]
    rcases hs : s.stats_vq_elem with _ | e
    · simp [balloon_stats_change_timer]
    · rcases hf : feat.stats_vq with _ | _ <;> simp [balloon_stats_change_timer]

/-- Witness for `C4_ready_flag_transitions`: a handler run over one
output-only chain sets the flag, an unsupported collect-one is a no-op
failure, and a supported collect-one clears the flag. -/
theorem C4_ready_flag_transitions_witness :
    ((virtio_balloon_handle_free_pages ⟨0, 0, [], none, 0, 0, 0, none, none, false⟩
        ⟨[⟨[], [[9]]⟩], 0, 0, []⟩).1.free_page_ready =
      (false || ([(⟨[], [[9]]⟩ : VirtQueueElement)].any
        (fun e => decide (0 < e.outBufs.length))))) ∧
    (virtio_balloon_free_page_report ⟨true, true, false, false⟩
        ⟨0, 0, [], none, 0, 0, 0, none, none, true⟩ ⟨[], 0, 0, []⟩ =
      (-1, ⟨0, 0, [], none, 0, 0, 0, none, none, true⟩, ⟨[], 0, 0, []⟩, 0)) ∧
    ((virtio_balloon_free_page_report ⟨true, true, true, false⟩
        ⟨0, 0, [], none, 0, 0, 0, none, some ⟨[], [[9]]⟩, true⟩
        ⟨[], 0, 0, []⟩).2.1.free_page_ready = false) := by
  have h := C4_ready_flag_transitions ⟨true, true, false, false⟩
    ⟨0, 0, [], none, 0, 0, 0, none, none, true⟩ ⟨[], 0, 0, []⟩ ⟨[], 0, 0, []⟩
    ⟨[⟨[], [[9]]⟩], 0, 0, []⟩ 0 none
  have h2 := C4_ready_flag_transitions ⟨true, true, true, false⟩
    ⟨0, 0, [], none, 0, 0, 0, none, some ⟨[], [[9]]⟩, true⟩ ⟨[], 0, 0, []⟩ ⟨[], 0, 0, []⟩
    ⟨[⟨[], [[9]]⟩], 0, 0, []⟩ 0 none
  have h3 := C4_ready_flag_transitions ⟨true, true, false, false⟩
    ⟨0, 0, [], none, 0, 0, 0, none, none, false⟩ ⟨[], 0, 0, []⟩ ⟨[], 0, 0, []⟩
    ⟨[⟨[], [[9]]⟩], 0, 0, []⟩ 0 none
  exact ⟨(h3.1 (by decide)).trans (by decide), h.2.1 rfl, h2.2.2.1 rfl⟩

/-- The stats receive path always records the popped chain as the held stats
buffer. -/
theorem receive_stats_elem_of_pop_some (now : Int) (tv : Option Int) (s : VirtIOBalloon)
    (vq vq1 : VirtQueue) (e : VirtQueueElement) (h : vq.pop = (some e, vq1)) :
    (virtio_balloon_receive_stats now tv s vq).1.stats_vq_elem = some e := by
  simp only [virtio_balloon_receive_stats, h]
  rcases s.stats_vq_elem with _ | o <;> rcases tv with _ | t <;>
    simp [balloon_stats_change_timer, balloon_stats_enabled] <;> split <;> simp

/-- The free-page handler never touches the held stats buffer. -/
theorem handle_free_pages_stats_elem (s : VirtIOBalloon) (vq : VirtQueue) :
    (virtio_balloon_handle_free_pages s vq).1.stats_vq_elem = s.stats_vq_elem :=
  (virtio_balloon_handle_free_pages_go_frame _ s vq).1

/-- Un-popping the most recently popped chain makes exactly that chain the
next one to pop. -/
theorem unpop_then_pop (q : VirtQueue) (e : VirtQueueElement) (l : Nat)
    (h : q.ring[q.lastAvail - 1]? = some e) :
    (q.unpop e l).pop.1 = some e := by
  simp [VirtQueue.unpop, VirtQueue.pop, h]

/-- C3 (amended): Reset un-pops a held Stats buffer onto its ring with zero
bytes consumed and clears the handle, and does the same for a held Free-Page
buffer when that capability is negotiated, so after Reset zero buffers are
held and the un-popped chain is again the next available element of its ring.
A driver-ready status transition (VM running) re-runs the stats handler and
re-acquires a buffer only when the ring still holds an in-use element — one
discarded while the VM was stopped — to rewind; after Reset's un-pop nothing
is in use, the rewind fails, and the handler is not re-run at that point (the
available chain is instead re-acquired on the handler's next invocation,
still without guest resubmission). -/
theorem C3_reset_recovery (feat : Features) (s : VirtIOBalloon) (svq fvq : VirtQueue)
    (now : Int) (tv : Option Int) (status : Nat) :
    (∀ e, s.stats_vq_elem = some e →
      (virtio_balloon_device_reset feat s svq fvq).1.stats_vq_elem = none ∧
      (virtio_balloon_device_reset feat s svq fvq).2.1 = svq.unpop e 0 ∧
      (svq.ring[svq.lastAvail - 1]? = some e → (svq.unpop e 0).pop.1 = some e)) ∧
    (∀ e, feat.free_page_vq = true → s.free_page_vq_elem = some e →
      (virtio_balloon_device_reset feat s svq fvq).1.free_page_vq_elem = none ∧
      (virtio_balloon_device_reset feat s svq fvq).2.2 = fvq.unpop e 0) ∧
    (∀ e, s.stats_vq_elem = none → 1 ≤ svq.inuse →
      svq.ring[svq.lastAvail - 1]? = some e →
      status.testBit 2 = true →
      (virtio_balloon_set_status feat now tv true status s svq fvq).1.stats_vq_elem =
        some e) ∧
    (s.stats_vq_elem = none → svq.inuse = 0 →
      (virtio_balloon_set_status feat now tv true status s svq fvq).1.stats_vq_elem =
        none ∧
      (virtio_balloon_set_status feat now tv true status s svq fvq).2.1 = svq) := by
  refine ⟨?_, ?_, ?_, ?_⟩
  · intro e hse
    refine ⟨?_, ?_, fun hg => unpop_then_pop svq e 0 hg⟩
    · simp only [virtio_balloon_device_reset, hse]
      rcases hf : feat.free_page_vq with _ | _
      · simp [hf]
      · simp only [hf]
        rcases hfe : s.free_page_vq_elem with _ | e2 <;> simp [hfe]
    · simp [virtio_balloon_device_reset, hse]
  · intro e hf hfe
    constructor
    · simp only [virtio_balloon_device_reset, hf, hfe]
      rcases hse : s.stats_vq_elem with _ | e2 <;> simp [hse, hf, hfe]
    · simp only [virtio_balloon_device_reset, hf, hfe]
      rcases hse : s.stats_vq_elem with _ | e2 <;> simp [hse, hf, hfe]
  · intro e hse hin hget hst
    have hcond : (true && status.testBit 2) = true := by simp [hst]
    have hrw : svq.rewind 1 =
        (true, { svq with lastAvail := svq.lastAvail - 1, inuse := svq.inuse - 1 }) := by
      simp [VirtQueue.rewind, hin]
    have hpop :
        ({ svq with lastAvail := svq.lastAvail - 1, inuse := svq.inuse - 1 } :
            VirtQueue).pop =
          (some e,
            { svq with lastAvail := svq.lastAvail - 1 + 1, inuse := svq.inuse - 1 + 1 }) := by
      simp [VirtQueue.pop, hget]
    have hrecv := receive_stats_elem_of_pop_some now tv s _ _ e hpop
    simp only [virtio_balloon_set_status, hcond, hse, if_true, ite_true, hrw]
    split
    · split
      · rw [handle_free_pages_stats_elem]
        exact hrecv
      · exact hrecv
    · exact hrecv
  · intro hse hin
    have hrw : svq.rewind 1 = (false, svq) := by
      simp [VirtQueue.rewind, hin]
    constructor
    · simp only [virtio_balloon_set_status]
      split
      · simp only [hse, ite_true, if_true, hrw]
        split
        · split
          · rw [handle_free_pages_stats_elem]
            exact hse
          · exact hse
        · exact hse
      · exact hse
    · simp only [virtio_balloon_set_status]
      split
      · simp [hse, hrw]
      · rfl

/-- C3 counterexample: after Reset un-pops the held stats buffer, the
driver-ready transition does NOT re-run the stats handler (there is no
in-use element left to rewind), so the buffer is not re-acquired at that
point — the claim's final clause is false. -/
theorem C3_counterexample :
    (virtio_balloon_device_reset ⟨true, true, true, false⟩
        ⟨0, 0, [], some ⟨[], [[1]]⟩, 0, 0, 0, none, none, false⟩
        ⟨[⟨[], [[1]]⟩], 1, 1, []⟩ ⟨[], 0, 0, []⟩ =
      (⟨0, 0, [], none, 0, 0, 0, none, none, false⟩,
       ⟨[⟨[], [[1]]⟩], 0, 0, []⟩, ⟨[], 0, 0, []⟩)) ∧
    ((virtio_balloon_set_status ⟨true, true, true, false⟩ 0 none true 4
        ⟨0, 0, [], none, 0, 0, 0, none, none, false⟩
        ⟨[⟨[], [[1]]⟩], 0, 0, []⟩ ⟨[], 0, 0, []⟩).1.stats_vq_elem = none) ∧
    ¬ ((virtio_balloon_set_status ⟨true, true, true, false⟩ 0 none true 4
        ⟨0, 0, [], none, 0, 0, 0, none, none, false⟩
        ⟨[⟨[], [[1]]⟩], 0, 0, []⟩ ⟨[], 0, 0, []⟩).1.stats_vq_elem =
      some ⟨[], [[1]]⟩) := by
  exact ⟨by decide, by decide, by decide⟩

/-- Witness for `C3_reset_recovery`: a held stats buffer is un-popped by
Reset; a buffer discarded while the VM was stopped (ring in-use, no handle)
is re-acquired at driver-ready; after Reset (nothing in use) driver-ready
leaves the stats ring untouched. -/
theorem C3_reset_recovery_witness :
    ((virtio_balloon_device_reset ⟨true, true, true, false⟩
        ⟨0, 0, [], some ⟨[], [[1]]⟩, 0, 0, 0, none, none, false⟩
        ⟨[⟨[], [[1]]⟩], 1, 1, []⟩ ⟨[], 0, 0, []⟩).1.stats_vq_elem = none) ∧
    ((virtio_balloon_set_status ⟨true, true, true, false⟩ 0 none true 4
        ⟨0, 0, [], none, 0, 0, 0, none, none, false⟩
        ⟨[⟨[], [[1]]⟩], 1, 1, []⟩ ⟨[], 0, 0, []⟩).1.stats_vq_elem = some ⟨[], [[1]]⟩) ∧
    ((virtio_balloon_set_status ⟨true, true, true, false⟩ 0 none true 4
        ⟨0, 0, [], none, 0, 0, 0, none, none, false⟩
        ⟨[⟨[], [[1]]⟩], 0, 0, []⟩ ⟨[], 0, 0, []⟩).2.1 = ⟨[⟨[], [[1]]⟩], 0, 0, []⟩) := by
  have h1 := C3_reset_recovery ⟨true, true, true, false⟩
    ⟨0, 0, [], some ⟨[], [[1]]⟩, 0, 0, 0, none, none, false⟩
    ⟨[⟨[], [[1]]⟩], 1, 1, []⟩ ⟨[], 0, 0, []⟩ 0 none 4
  have h2 := C3_reset_recovery ⟨true, true, true, false⟩
    ⟨0, 0, [], none, 0, 0, 0, none, none, false⟩
    ⟨[⟨[], [[1]]⟩], 1, 1, []⟩ ⟨[], 0, 0, []⟩ 0 none 4
  have h3 := C3_reset_recovery ⟨true, true, true, false⟩
    ⟨0, 0, [], none, 0, 0, 0, none, none, false⟩
    ⟨[⟨[], [[1]]⟩], 0, 0, []⟩ ⟨[], 0, 0, []⟩ 0 none 4
  exact ⟨(h1.1 ⟨[], [[1]]⟩ rfl).1,
    h2.2.2.1 ⟨[], [[1]]⟩ rfl (by decide) (by decide) (by decide),
    (h3.2.2.2 rfl rfl).2⟩

/-- The log count of a chain's madvise activity counts exactly the ranges
whose walk aborted on an invalid section. -/
theorem balloon_chain_madvise_logs (find : Nat → Nat → MemoryRegionSection)
    (inh kb : Bool) (calls : List (Nat × Nat × Bool)) :
    (balloon_chain_madvise find inh kb calls).2 =
      (calls.filter (fun c => (balloon_pages find inh kb c.1 c.2.1 c.2.2).2)).length := by
  induction calls with
  | nil => simp [balloon_chain_madvise]
  | cons c rest ih =>
    simp only [balloon_chain_madvise, List.filter_cons, ih]
    rcases hb : (balloon_pages find inh kb c.1 c.2.1 c.2.2).2 with _ | _ <;>
      simp [hb] <;> omega

/-- C5 (amended): an invalid resolved range aborts the madvise walk of that
range only, at the failing section, and is logged; hints already issued —
for earlier sections of the same range and for other ranges of the chain —
stand, ranges after the failing one are still processed, and the device does
not fail: the chain is still pushed back with the same payload length and
the guest notified, independent of the memory map. -/
theorem C5_invalid_range_isolation (find : Nat → Nat → MemoryRegionSection)
    (inh kb : Bool) (hfind : ∀ a n, (find a n).size ≤ n)
    (calls : List (Nat × Nat × Bool)) (i : Nat) (hi : i < calls.length)
    (sg dv : Bool) (vq : VirtQueue) (hvq : vq.lastAvail ≤ vq.ring.length) :
    ((balloon_chain_madvise find inh kb calls).1 =
      (balloon_chain_madvise find inh kb (calls.take i)).1 ++
        (balloon_pages find inh kb (calls.get ⟨i, hi⟩).1 (calls.get ⟨i, hi⟩).2.1
          (calls.get ⟨i, hi⟩).2.2).1 ++
        (balloon_chain_madvise find inh kb (calls.drop (i + 1))).1) ∧
    ((balloon_chain_madvise find inh kb calls).2 =
      (calls.filter (fun c => (balloon_pages find inh kb c.1 c.2.1 c.2.2).2)).length) ∧
    (∀ a n : Nat, ∀ d : Bool,
      madvise_contig d a (balloon_pages find false false a n d).1 = true ∧
      madvise_span (balloon_pages find false false a n d).1 ≤ n ∧
      ((balloon_pages find false false a n d).2 = false →
        madvise_span (balloon_pages find false false a n d).1 = n) ∧
      ((balloon_pages find false false a n d).2 = true →
        memory_section_bad
          (find (a + madvise_span (balloon_pages find false false a n d).1)
            (n - madvise_span (balloon_pages find false false a n d).1)) = true ∧
        madvise_span (balloon_pages find false false a n d).1 < n)) ∧
    ((virtio_balloon_handle_output sg dv vq).1.used =
      vq.used ++ (vq.ring.drop vq.lastAvail).map
        (fun e => (e, (virtio_balloon_process_elem sg dv e).2))) ∧
    ((virtio_balloon_handle_output sg dv vq).2.2 =
      (vq.ring.drop vq.lastAvail).length) := by
  refine ⟨?_, balloon_chain_madvise_logs find inh kb calls, ?_, ?_, ?_⟩
  · have hsplit : calls = calls.take i ++ calls.get ⟨i, hi⟩ :: calls.drop (i + 1) := by
      conv_lhs => rw [← List.take_append_drop i calls]
      rw [List.drop_eq_getElem_cons hi]
      rfl
    conv_lhs => rw [hsplit]
    rw [balloon_chain_madvise_append]
    simp only [balloon_chain_madvise]
    simp [List.append_assoc]
  · intro a n d
    have h := balloon_pages_go_coverage find d hfind n a n le_rfl
    simpa [balloon_pages] using h
  · rw [virtio_balloon_handle_output,
      virtio_balloon_handle_output_go_drain sg dv _ vq le_rfl hvq]
  · rw [virtio_balloon_handle_output,
      virtio_balloon_handle_output_go_drain sg dv _ vq le_rfl hvq]

/-- C5 counterexample: in a chain of two single-page ranges whose first
range resolves to an unmapped section, the first range is aborted and logged
but the second range is still madvised — the claim that the loop returns
without pushing further pages from that chain is false. -/
theorem C5_counterexample :
    ((balloon_chain_madvise c5_find false false
        [(4096, 4096, false), (8192, 4096, false)]).1 = [(8192, 4096, false)]) ∧
    ((balloon_chain_madvise c5_find false false
        [(4096, 4096, false), (8192, 4096, false)]).2 = 1) ∧
    ¬ ((balloon_chain_madvise c5_find false false
        [(4096, 4096, false), (8192, 4096, false)]).1 = []) := by
  exact ⟨by decide, by decide, by decide⟩

/-- Witness for `C5_invalid_range_isolation` at the concrete map `c5_find`,
the two-range chain of the counterexample, and a one-chain queue. -/
theorem C5_invalid_range_isolation_witness :
    ((balloon_chain_madvise c5_find false false
        [(4096, 4096, false), (8192, 4096, false)]).1 =
      (balloon_chain_madvise c5_find false false [(4096, 4096, false)]).1 ++
        (balloon_pages c5_find false false 8192 4096 false).1 ++
        (balloon_chain_madvise c5_find false false []).1) ∧
    ((virtio_balloon_handle_output false false
        ⟨[⟨[], [[1, 0, 0, 0, 2, 0, 0, 0]]⟩], 0, 0, []⟩).2.2 = 1) := by
  have h := C5_invalid_range_isolation c5_find false false
    (by
      intro a n
      by_cases ha : a = 4096 <;> simp [c5_find, ha])
    [(4096, 4096, false), (8192, 4096, false)] 1 (by decide) false false
    ⟨[⟨[], [[1, 0, 0, 0, 2, 0, 0, 0]]⟩], 0, 0, []⟩ (by decide)
  exact ⟨h.1, h.2.2.2.2.trans (by decide)⟩
